import Mathlib

/-
A verification development for the image-editor session of `Q1.py`
(class `ImageEditorApp`): the session state (image variables, crop-gesture
coordinates, undo/redo stacks), the crop coordinate mapping, and the
operations `load_image`, `start_crop`, `finish_crop`, `apply_edge`,
`resize_image`, `save_image`, `push_undo`, `undo`, `redo`.

Modelling conventions.  Images are pixel matrices with an explicit shape
(mirroring numpy's `shape`); pixel values are single natural-number
intensities, since no property under study inspects colour layout.  Python's
float division followed by `int(...)` is modelled exactly over the integers
as truncating division (`Int.tdiv`).  Python list stacks (append / pop at
the end) are modelled as Lean lists with the top at the head.  Operations
that can raise (`finish_crop`, via `None.shape` or a zero division) return
`Except`.  External OpenCV calls are modelled as collaborator functions
whose shape and error behaviour match the library — in particular
`cv2.resize` raises `cv2.error` on an empty source or a zero target
dimension, modelled with `Except`; pixel content is irrelevant to every
property proved below.
-/

/-- A raster buffer as handled by OpenCV/numpy in `Q1.py`: a shape
(`height`, `width`) together with the pixel rows.  The shape is carried
explicitly, as numpy does, so that zero-sized buffers keep their shape. -/
structure Img where
  height : Nat
  width : Nat
  data : List (List Nat)
  deriving DecidableEq, Repr

/-- Pixel lookup with a zero default outside the stored data. -/
def Img.pixel (img : Img) (y x : Nat) : Nat :=
  (img.data.getD y []).getD x 0

/-- Normalisation of one Python slice endpoint against a sequence of length
`len`: a negative index counts from the end, and both ends clamp into
`[0, len]` (CPython `slice.indices` semantics, shared by numpy basic
slicing). -/
def pyIndex (len : Nat) (i : Int) : Nat :=
  if i < 0 then (i + len).toNat else min i.toNat len

/-- Python sequence slicing `l[i:j]` with step 1. -/
def pySlice (l : List α) (i j : Int) : List α :=
  (l.drop (pyIndex l.length i)).take (pyIndex l.length j - pyIndex l.length i)

/-- numpy basic slicing `img[y1:y2, x1:x2]` on a 2-D buffer, as used at
`Q1.py:117`.  The result shape comes from the normalised slice bounds,
exactly as numpy computes it; an empty range yields a zero-sized axis, not
an error. -/
def cropImg (img : Img) (y1 y2 x1 x2 : Int) : Img :=
  { height := pyIndex img.height y2 - pyIndex img.height y1
    width := pyIndex img.width x2 - pyIndex img.width x1
    data := (pySlice img.data y1 y2).map (fun row => pySlice row x1 x2) }

/-- The raising outcome of the OpenCV collaborator: `cv2.error`. -/
inductive CvError where
  | cvError
  deriving DecidableEq, Repr

/-- The buffer `cv2.resize(img, (w, h))` returns on success: exactly the
requested shape, with the pixel content modelled by nearest-neighbour
sampling, since no claim under study depends on the interpolated values. -/
def cvSample (img : Img) (w h : Nat) : Img :=
  { height := h
    width := w
    data := (List.range h).map (fun y => (List.range w).map (fun x =>
      img.pixel (y * img.height / h) (x * img.width / w))) }

/-- Modelled collaborator: `cv2.resize(img, (w, h))` (`Q1.py:141` and
`Q1.py:162`).  OpenCV raises `cv2.error` when the source buffer is empty
(the `ssize` assertion) or when a requested dimension is zero (the empty
`dsize` falls back to the zero scale factors and fails their assertion);
otherwise it returns a buffer of exactly the requested shape. -/
def cvResize (img : Img) (w h : Nat) : Except CvError Img :=
  if img.height = 0 ∨ img.width = 0 ∨ w = 0 ∨ h = 0 then
    Except.error CvError.cvError
  else
    Except.ok (cvSample img w h)

/-- Modelled collaborator: the `cvtColor` / `Canny(gray, 100, 200)` /
`cvtColor` pipeline of `apply_edge` (`Q1.py:179`-`181`), modelled as a
shape-preserving pixelwise edge threshold.  The claims depend only on the
pipeline being a pure function of the working image, not on edge values. -/
def cannyBGR (img : Img) : Img :=
  { img with data := img.data.map (fun row => row.map (fun p => if 100 < p then 255 else 0)) }

/-- The session state of `ImageEditorApp` (`Q1.py:9`-`30`): the image
variables, the crop-gesture coordinates and the two history stacks.  Stacks
keep their top at the head of the list.  Tk widget state (the canvas
rectangle id, labels, slider) carries no image data and is omitted. -/
structure Session where
  originalImage : Option Img
  croppedImage : Option Img
  resizedImage : Option Img
  displayImage : Option Img
  startX : Int
  startY : Int
  endX : Int
  endY : Int
  undoStack : List Img
  redoStack : List Img
  deriving DecidableEq, Repr

/-- The state built by `__init__` (`Q1.py:9`-`30`): no images, zeroed gesture
coordinates, empty stacks. -/
def initialSession : Session :=
  { originalImage := none, croppedImage := none, resizedImage := none
    displayImage := none, startX := 0, startY := 0, endX := 0, endY := 0
    undoStack := [], redoStack := [] }

/-- `push_undo` (`Q1.py:186`-`189`): append the snapshot to the undo stack
and clear the redo stack. -/
def push_undo (s : Session) (image : Img) : Session :=
  { s with undoStack := image :: s.undoStack, redoStack := [] }

/-- `show_image` (`Q1.py:83`-`92`): record the shown buffer as
`display_image` and size the canvas to it; the Tk conversion has no further
session-state effect. -/
def show_image (s : Session) (img : Img) : Session :=
  { s with displayImage := some img }

/-- `load_image` (`Q1.py:72`-`81`) on a successful dialog and decode, `img`
being the buffer `cv2.imread` returned: replace the original image, push a
copy of it for undo, and show it.  (A cancelled dialog returns early, an
identity on the session.) -/
def load_image (s : Session) (img : Img) : Session :=
  show_image (push_undo { s with originalImage := some img } img) img

/-- `start_crop` (`Q1.py:94`-`97`): record the gesture start point; the
canvas rectangle is pure visual feedback. -/
def start_crop (s : Session) (x y : Int) : Session :=
  { s with startX := x, startY := y }

/-- Outcomes in which `finish_crop` raises instead of committing.
`attributeErrorNoneDisplay` is Python's `AttributeError` on
`self.display_image.shape` when nothing was ever shown; `zeroDivisionError`
is Python's `ZeroDivisionError` from the scale division; `invalidGeometry`
is the error named by the specification for a zero-sized display — declared
here so the specified behaviour can be compared with the code, which never
produces it. -/
inductive CropError where
  | attributeErrorNoneDisplay
  | zeroDivisionError
  | invalidGeometry
  deriving DecidableEq, Repr

/-- The coordinate mapping inside `finish_crop` (`Q1.py:107`-`114`):
normalise the drag rectangle so the first corner is the minimum and the
second the maximum, scale canvas coordinates by `source / display`, and
truncate with Python `int(...)` (truncation toward zero; the source's float
arithmetic is modelled exactly over the rationals).  Returns
`(imgX1, imgY1, imgX2, imgY2)`. -/
def coordMap (sx sy ex ey : Int) (dispW dispH srcW srcH : Nat) :
    Int × Int × Int × Int :=
  let x1 := min sx ex
  let y1 := min sy ey
  let x2 := max sx ex
  let y2 := max sy ey
  (Int.tdiv (x1 * srcW) dispW, Int.tdiv (y1 * srcH) dispH,
   Int.tdiv (x2 * srcW) dispW, Int.tdiv (y2 * srcH) dispH)

/-- `finish_crop` (`Q1.py:104`-`122`): record the release point, map the drag
rectangle to source pixel coordinates against the canvas dimensions, slice
the displayed buffer, make the slice both the cropped image and the (copied)
resized working image, and push the snapshot for undo.  It raises
`AttributeError` when no image was ever displayed and `ZeroDivisionError`
when the canvas reports a zero dimension.  An empty mapped rectangle is still
committed — only the preview update in `display_cropped_image` is skipped
(`Q1.py:126`-`127`), which touches no session state. -/
def finish_crop (s : Session) (eventX eventY : Int) (canvasW canvasH : Nat) :
    Except CropError Session :=
  let s1 := { s with endX := eventX, endY := eventY }
  match s1.displayImage with
  | none => Except.error CropError.attributeErrorNoneDisplay
  | some disp =>
    if canvasW = 0 ∨ canvasH = 0 then Except.error CropError.zeroDivisionError
    else
      match coordMap s1.startX s1.startY s1.endX s1.endY canvasW canvasH disp.width disp.height with
      | (imgX1, imgY1, imgX2, imgY2) =>
        let cropped := cropImg disp imgY1 imgY2 imgX1 imgX2
        Except.ok (push_undo
          { s1 with croppedImage := some cropped, resizedImage := some cropped }
          cropped)

/-- `apply_edge` (`Q1.py:176`-`184`): with a working image present, compute
the edge image, push the PREVIOUS working image as the undo snapshot, then
replace the working image by the edge image; otherwise do nothing.  (In the
source this def sits at module level through an indentation slip; its body is
embedded as written.) -/
def apply_edge (s : Session) : Session :=
  match s.resizedImage with
  | none => s
  | some img => { push_undo s img with resizedImage := some (cannyBGR img) }

/-- `resize_image` (`Q1.py:155`-`164`): no-op until a crop exists; otherwise
scale the CROPPED baseline (not the current working image) to
`int(w * percent / 100)` by `int(h * percent / 100)` and make the result the
working image.  Nothing is pushed to either history stack.  When
`cv2.resize` raises — zero target dimension or empty baseline — the
exception propagates out of the callback before any assignment. -/
def resize_image (s : Session) (value : Nat) : Except CvError Session :=
  match s.croppedImage with
  | none => Except.ok s
  | some cropped =>
    let percent := value
    let width := cropped.width * percent / 100
    let height := cropped.height * percent / 100
    match cvResize cropped width height with
    | Except.error e => Except.error e
    | Except.ok resized => Except.ok { s with resizedImage := some resized }

/-- The session as it stands once the resize callback finishes: the updated
session on normal return, or the unchanged session when `cv2.resize` raised,
since the exception propagates before any assignment to the session. -/
def afterResize (s : Session) (value : Nat) : Session :=
  match resize_image s value with
  | Except.ok s2 => s2
  | Except.error _ => s

/-- `save_image` (`Q1.py:166`-`174`): the dialogs and `cv2.imwrite` touch no
session state, so a save attempt leaves the session unchanged. -/
def save_image (s : Session) : Session :=
  s

/-- `undo` (`Q1.py:191`-`196`): only when the undo stack holds more than one
entry, move its top onto the redo stack and copy the new top into the
working image. -/
def undo (s : Session) : Session :=
  match s.undoStack with
  | t :: next :: rest =>
    { s with undoStack := next :: rest, redoStack := t :: s.redoStack
             resizedImage := some next }
  | _ => s

/-- `redo` (`Q1.py:198`-`203`): when the redo stack is non-empty, pop its
top, make it the working image, and push a copy back onto the undo stack. -/
def redo (s : Session) : Session :=
  match s.redoStack with
  | t :: rest =>
    { s with redoStack := rest, undoStack := t :: s.undoStack
             resizedImage := some t }
  | [] => s

/-- The history-top invariant stated by the specification: whenever the undo
stack is non-empty, its top equals the current working image. -/
def histTopInv (s : Session) : Prop :=
  s.undoStack ≠ [] → s.resizedImage = s.undoStack.head?

instance (s : Session) : Decidable (histTopInv s) := by
  unfold histTopInv
  infer_instance

/-- A concrete 2 by 2 test buffer. -/
def imgA : Img :=
  { height := 2, width := 2, data := [[200, 0], [0, 200]] }

/-- The top-left 1 by 1 sub-buffer of `imgA`. -/
def imgCropTL : Img :=
  { height := 1, width := 1, data := [[200]] }

/-- A second 1 by 1 test buffer, distinct from `imgCropTL`. -/
def imgB : Img :=
  { height := 1, width := 1, data := [[0]] }

/-- The zero-sized buffer a degenerate crop produces. -/
def imgEmpty : Img :=
  { height := 0, width := 0, data := [] }

/-- The session after loading `imgA` and committing a full-frame crop
(gesture (0,0) to (2,2) on a 2 by 2 canvas). -/
def sessionAfterFullCrop : Session :=
  { originalImage := some imgA, croppedImage := some imgA
    resizedImage := some imgA, displayImage := some imgA
    startX := 0, startY := 0, endX := 2, endY := 2
    undoStack := [imgA, imgA], redoStack := [] }

/-- The session after loading `imgA` and committing a top-left quarter crop
(gesture (0,0) to (1,1) on a 2 by 2 canvas). -/
def sessionAfterTLCrop : Session :=
  { originalImage := some imgA, croppedImage := some imgCropTL
    resizedImage := some imgCropTL, displayImage := some imgA
    startX := 0, startY := 0, endX := 1, endY := 1
    undoStack := [imgCropTL, imgA], redoStack := [] }

/-- Equality of `Except` results is decidable componentwise; used to evaluate
concrete `finish_crop` runs. -/
instance {ε α : Type} [DecidableEq ε] [DecidableEq α] : DecidableEq (Except ε α)
  | Except.error x, Except.error y =>
    if h : x = y then isTrue (by rw [h])
    else isFalse (by intro hc; cases hc; exact h rfl)
  | Except.error _, Except.ok _ => isFalse (by intro hc; cases hc)
  | Except.ok _, Except.error _ => isFalse (by intro hc; cases hc)
  | Except.ok x, Except.ok y =>
    if h : x = y then isTrue (by rw [h])
    else isFalse (by intro hc; cases hc; exact h rfl)

/-- A session one effective undo before `sessionRewound`: two undo entries
with the working image on top. -/
def sessionBeforeUndo : Session :=
  { sessionAfterTLCrop with undoStack := [imgB, imgCropTL]
                            resizedImage := some imgB }

/-- The rewound session `undo sessionBeforeUndo`: a single (baseline) undo
entry left, one redoable snapshot. -/
def sessionRewound : Session :=
  { sessionAfterTLCrop with undoStack := [imgCropTL]
                            redoStack := [imgB]
                            resizedImage := some imgCropTL }

/-- Effect of every successful `finish_crop` on the session: the new cropped
buffer is also the working image and the freshly pushed top of the undo
stack, the previous undo entries are kept below it, and the redo stack is
cleared. -/
theorem finish_crop_ok_effect (s s2 : Session) (ex ey : Int) (cw ch : Nat)
    (h : finish_crop s ex ey cw ch = Except.ok s2) :
    s2.resizedImage = s2.croppedImage ∧
    s2.undoStack.head? = s2.croppedImage ∧
    s2.undoStack.tail = s.undoStack ∧
    s2.undoStack.length = s.undoStack.length + 1 ∧
    s2.redoStack = [] := by
  simp only [finish_crop] at h
  split at h
  · exact Except.noConfusion h
  · split at h
    · exact Except.noConfusion h
    · injection h with h2
      subst h2
      simp [push_undo]

/-- The session `finish_crop sessionAfterFullCrop 2 2 2 2` commits: one more
full-frame snapshot on the undo stack. -/
def sessionAfterFullCrop2 : Session :=
  { sessionAfterFullCrop with undoStack := [imgA, imgA, imgA] }

/-- Claim C1 is false on the code: the post-crop state reached by a load and
a full-frame crop satisfies the history-top invariant, yet a single filter
application (`apply_edge`) leaves a state whose undo-stack top is the
pre-edit image rather than the current working image. -/
theorem C1_counterexample :
    finish_crop (start_crop (load_image initialSession imgA) 0 0) 2 2 2 2
      = Except.ok sessionAfterFullCrop ∧
    histTopInv sessionAfterFullCrop ∧
    ¬ histTopInv (apply_edge sessionAfterFullCrop) := by decide

/-- Claim C1 amended: `undo` and `redo` preserve the history-top invariant
and a committed crop (re)establishes it, but filter application
(`apply_edge`) breaks it, leaving the pre-edit working image on top of the
undo stack beneath the new working image (and `load_image` pushes the loaded
buffer without touching the working image at all). -/
theorem C1_amended (s s2 : Session) (img : Img) (ex ey : Int) (cw ch : Nat)
    (hinv : histTopInv s)
    (hcrop : finish_crop s ex ey cw ch = Except.ok s2)
    (himg : s.resizedImage = some img) :
    histTopInv (undo s) ∧ histTopInv (redo s) ∧ histTopInv s2 ∧
    (apply_edge s).undoStack.head? = some img ∧
    (apply_edge s).resizedImage = some (cannyBGR img) := by
  refine ⟨?_, ?_, ?_, ?_, ?_⟩
  · rcases h : s.undoStack with _ | ⟨t, _ | ⟨next, rest⟩⟩
    · simpa [undo, h] using hinv
    · simpa [undo, h] using hinv
    · simp [histTopInv, undo, h]
  · rcases h : s.redoStack with _ | ⟨t, rest⟩
    · simpa [redo, h] using hinv
    · simp [histTopInv, redo, h]
  · have e := finish_crop_ok_effect s s2 ex ey cw ch hcrop
    intro _
    rw [e.1, e.2.1]
  · simp [apply_edge, himg, push_undo]
  · simp [apply_edge, himg, push_undo]

/-- Witness for the amended claim C1 at the concrete post-crop session. -/
theorem C1_witness :
    histTopInv (undo sessionAfterFullCrop) ∧
    histTopInv (redo sessionAfterFullCrop) ∧
    histTopInv sessionAfterFullCrop2 ∧
    (apply_edge sessionAfterFullCrop).undoStack.head? = some imgA ∧
    (apply_edge sessionAfterFullCrop).resizedImage = some (cannyBGR imgA) :=
  C1_amended sessionAfterFullCrop sessionAfterFullCrop2 imgA 2 2 2 2
    (by decide) (by decide) (by decide)

/-- Claim C2 is false on the code: committing a crop right after a load
leaves two entries on the undo stack — the loaded original below the cropped
image — so the cropped image is not the sole entry and the history was not
cleared. -/
theorem C2_counterexample :
    finish_crop (start_crop (load_image initialSession imgA) 0 0) 1 1 2 2
      = Except.ok sessionAfterTLCrop ∧
    sessionAfterTLCrop.undoStack = [imgCropTL, imgA] ∧
    sessionAfterTLCrop.undoStack ≠ [imgCropTL] := by decide

/-- Claim C2 amended: committing a crop clears only the redo stack and pushes
the new cropped image on top of the undo stack; the undo entries present
before the crop are retained below it rather than cleared. -/
theorem C2_amended (s s2 : Session) (ex ey : Int) (cw ch : Nat)
    (h : finish_crop s ex ey cw ch = Except.ok s2) :
    s2.redoStack = [] ∧
    s2.undoStack.head? = s2.croppedImage ∧
    s2.undoStack.tail = s.undoStack ∧
    s2.resizedImage = s2.croppedImage := by
  have e := finish_crop_ok_effect s s2 ex ey cw ch h
  exact ⟨e.2.2.2.2, e.2.1, e.2.2.1, e.1⟩

/-- Witness for the amended claim C2 at the concrete quarter crop. -/
theorem C2_witness :
    sessionAfterTLCrop.redoStack = [] ∧
    sessionAfterTLCrop.undoStack.head? = sessionAfterTLCrop.croppedImage ∧
    sessionAfterTLCrop.undoStack.tail
      = (start_crop (load_image initialSession imgA) 0 0).undoStack ∧
    sessionAfterTLCrop.resizedImage = sessionAfterTLCrop.croppedImage :=
  C2_amended (start_crop (load_image initialSession imgA) 0 0)
    sessionAfterTLCrop 1 1 2 2 (by decide)

/-- Claim C3 is false on the code: a successful load pushes the loaded
original onto the (previously empty) undo stack, and from a state with a
working image the load leaves that working image in place instead of
resetting it to none. -/
theorem C3_counterexample :
    initialSession.undoStack = [] ∧
    (load_image initialSession imgA).undoStack = [imgA] ∧
    (load_image sessionAfterTLCrop imgB).resizedImage = some imgCropTL := by
  decide

/-- Claim C3 amended: a successful load replaces the original image, pushes
the loaded buffer onto the undo stack (clearing the redo stack), displays
it, and leaves the working image unchanged instead of resetting it; history
therefore begins at load, not at the first crop. -/
theorem C3_amended (s : Session) (img : Img) :
    (load_image s img).originalImage = some img ∧
    (load_image s img).undoStack = img :: s.undoStack ∧
    (load_image s img).redoStack = [] ∧
    (load_image s img).displayImage = some img ∧
    (load_image s img).resizedImage = s.resizedImage :=
  ⟨rfl, rfl, rfl, rfl, rfl⟩

/-- Claim C4 is false on the code: in a history state where the undo stack
holds only the baseline but the redo stack is non-empty — exactly the state
an effective undo leaves behind, and one satisfying the history-top
invariant — `undo` is a no-op while `redo` still advances, so the pair
changes the working image. -/
theorem C4_counterexample :
    undo sessionBeforeUndo = sessionRewound ∧
    histTopInv sessionRewound ∧
    sessionRewound.resizedImage = some imgCropTL ∧
    (redo (undo sessionRewound)).resizedImage = some imgB ∧
    imgB ≠ imgCropTL := by decide

/-- Claim C4 amended: undo immediately followed by redo is the identity on
the working image on every history state where the undo is effective (at
least two undo entries) and the working image agrees with the undo-stack
top. -/
theorem C4_amended (s : Session) (h1 : 1 < s.undoStack.length)
    (h2 : s.resizedImage = s.undoStack.head?) :
    (redo (undo s)).resizedImage = s.resizedImage := by
  rcases h : s.undoStack with _ | ⟨t, _ | ⟨next, rest⟩⟩
  · rw [h] at h1; simp at h1
  · rw [h] at h1; simp at h1
  · rw [h] at h2
    simp only [List.head?_cons] at h2
    simp [undo, redo, h, h2]

/-- Witness for the amended claim C4 at the two-entry session. -/
theorem C4_witness :
    (redo (undo sessionBeforeUndo)).resizedImage
      = sessionBeforeUndo.resizedImage :=
  C4_amended sessionBeforeUndo (by decide) (by decide)

/-- Arithmetic core of the mapper bound: scaling a coordinate in `[0, d)` by
`s / d` and truncating lands in `[0, s)`. -/
theorem tdiv_scale_mem (x : Int) (d s : Nat) (hd : 0 < d) (hs : 0 < s)
    (hx0 : 0 ≤ x) (hxd : x < d) :
    0 ≤ Int.tdiv (x * s) d ∧ Int.tdiv (x * s) d < s := by
  have hd2 : (0:Int) < (d:Int) := by exact_mod_cast hd
  have hs2 : (0:Int) < (s:Int) := by exact_mod_cast hs
  have hnum : (0:Int) ≤ x * s := mul_nonneg hx0 hs2.le
  rw [Int.tdiv_eq_ediv hnum hd2.le]
  refine ⟨Int.ediv_nonneg hnum hd2.le, ?_⟩
  rw [Int.ediv_lt_iff_lt_mul hd2]
  calc x * (s:Int) < d * s := mul_lt_mul_of_pos_right hxd hs2
    _ = s * d := mul_comm _ _

/-- Claim C5: for gesture points inside the displayed canvas and positive
display and source dimensions, every corner coordinate produced by the
mapper lies within `[0, sourceWidth)` respectively `[0, sourceHeight)`. -/
theorem C5_mapper_in_bounds (sx sy ex ey : Int) (dispW dispH srcW srcH : Nat)
    (hdw : 0 < dispW) (hdh : 0 < dispH) (hsw : 0 < srcW) (hsh : 0 < srcH)
    (hsx0 : 0 ≤ sx) (hsxd : sx < dispW) (hex0 : 0 ≤ ex) (hexd : ex < dispW)
    (hsy0 : 0 ≤ sy) (hsyd : sy < dispH) (hey0 : 0 ≤ ey) (heyd : ey < dispH) :
    0 ≤ (coordMap sx sy ex ey dispW dispH srcW srcH).1 ∧
    (coordMap sx sy ex ey dispW dispH srcW srcH).1 < srcW ∧
    0 ≤ (coordMap sx sy ex ey dispW dispH srcW srcH).2.1 ∧
    (coordMap sx sy ex ey dispW dispH srcW srcH).2.1 < srcH ∧
    0 ≤ (coordMap sx sy ex ey dispW dispH srcW srcH).2.2.1 ∧
    (coordMap sx sy ex ey dispW dispH srcW srcH).2.2.1 < srcW ∧
    0 ≤ (coordMap sx sy ex ey dispW dispH srcW srcH).2.2.2 ∧
    (coordMap sx sy ex ey dispW dispH srcW srcH).2.2.2 < srcH := by
  have h1 := tdiv_scale_mem (min sx ex) dispW srcW hdw hsw (le_min hsx0 hex0)
    (lt_of_le_of_lt (min_le_left _ _) hsxd)
  have h2 := tdiv_scale_mem (min sy ey) dispH srcH hdh hsh (le_min hsy0 hey0)
    (lt_of_le_of_lt (min_le_left _ _) hsyd)
  have h3 := tdiv_scale_mem (max sx ex) dispW srcW hdw hsw
    (le_max_of_le_left hsx0) (max_lt hsxd hexd)
  have h4 := tdiv_scale_mem (max sy ey) dispH srcH hdh hsh
    (le_max_of_le_left hsy0) (max_lt hsyd heyd)
  exact ⟨h1.1, h1.2, h2.1, h2.2, h3.1, h3.2, h4.1, h4.2⟩

/-- Witness for claim C5 at the concrete quarter-crop gesture. -/
theorem C5_witness :
    0 ≤ (coordMap 0 0 1 1 2 2 2 2).1 ∧
    (coordMap 0 0 1 1 2 2 2 2).1 < ((2:Nat):Int) ∧
    0 ≤ (coordMap 0 0 1 1 2 2 2 2).2.1 ∧
    (coordMap 0 0 1 1 2 2 2 2).2.1 < ((2:Nat):Int) ∧
    0 ≤ (coordMap 0 0 1 1 2 2 2 2).2.2.1 ∧
    (coordMap 0 0 1 1 2 2 2 2).2.2.1 < ((2:Nat):Int) ∧
    0 ≤ (coordMap 0 0 1 1 2 2 2 2).2.2.2 ∧
    (coordMap 0 0 1 1 2 2 2 2).2.2.2 < ((2:Nat):Int) :=
  C5_mapper_in_bounds 0 0 1 1 2 2 2 2 (by decide) (by decide) (by decide)
    (by decide) (by decide) (by decide) (by decide) (by decide) (by decide)
    (by decide) (by decide) (by decide)

/-- The session after loading `imgA` and releasing a click with no drag at
(1,1): the mapped rectangle is empty, yet the commit happens. -/
def sessionAfterClickCrop : Session :=
  { originalImage := some imgA, croppedImage := some imgEmpty
    resizedImage := some imgEmpty, displayImage := some imgA
    startX := 1, startY := 1, endX := 1, endY := 1
    undoStack := [imgEmpty, imgA], redoStack := [] }

/-- Claim C6 is false on the code: a click with no drag maps to an empty
rectangle, and the crop commit is not a no-op — the zero-sized buffer
becomes the cropped and working image and is pushed onto the undo stack,
changing the session state. -/
theorem C6_counterexample :
    finish_crop (start_crop (load_image initialSession imgA) 1 1) 1 1 2 2
      = Except.ok sessionAfterClickCrop ∧
    sessionAfterClickCrop ≠ start_crop (load_image initialSession imgA) 1 1 ∧
    sessionAfterClickCrop.resizedImage = some imgEmpty ∧
    imgEmpty.height = 0 ∧ imgEmpty.width = 0 ∧
    sessionAfterClickCrop.undoStack.length
      = (start_crop (load_image initialSession imgA) 1 1).undoStack.length + 1 := by
  decide

/-- Claim C6 amended: a crop whose mapped rectangle is empty (zero-sized
cropped buffer) is still committed like any other crop: the empty buffer
becomes the working image and the freshly pushed top of the undo stack, the
undo stack grows by one, and the redo stack is cleared; only the preview
display of the cropped image is skipped. -/
theorem C6_amended (s s2 : Session) (c : Img) (ex ey : Int) (cw ch : Nat)
    (h : finish_crop s ex ey cw ch = Except.ok s2)
    (hc : s2.croppedImage = some c) (_hempty : c.height * c.width = 0) :
    s2.resizedImage = some c ∧
    s2.undoStack.head? = some c ∧
    s2.undoStack.length = s.undoStack.length + 1 ∧
    s2.redoStack = [] := by
  have e := finish_crop_ok_effect s s2 ex ey cw ch h
  exact ⟨by rw [e.1, hc], by rw [e.2.1, hc], e.2.2.2.1, e.2.2.2.2⟩

/-- Witness for the amended claim C6 at the concrete empty click-crop. -/
theorem C6_witness :
    sessionAfterClickCrop.resizedImage = some imgEmpty ∧
    sessionAfterClickCrop.undoStack.head? = some imgEmpty ∧
    sessionAfterClickCrop.undoStack.length
      = (start_crop (load_image initialSession imgA) 1 1).undoStack.length + 1 ∧
    sessionAfterClickCrop.redoStack = [] :=
  C6_amended (start_crop (load_image initialSession imgA) 1 1)
    sessionAfterClickCrop imgEmpty 1 1 2 2 (by decide) (by decide) (by decide)

/-- Claim C7 is false on the code: with a zero canvas width the scale
division is reached unguarded and the crop fails with Python's
ZeroDivisionError, not with the specified InvalidGeometry error. -/
theorem C7_counterexample :
    finish_crop (load_image initialSession imgA) 1 1 0 2
      = Except.error CropError.zeroDivisionError ∧
    finish_crop (load_image initialSession imgA) 1 1 0 2
      ≠ Except.error CropError.invalidGeometry := by decide

/-- Claim C7 amended: when the display width or height is zero (and an image
is displayed, so the scale expression is reached), the unguarded division by
the canvas dimension makes the crop fail with a ZeroDivisionError; no
InvalidGeometry guard exists in the code. -/
theorem C7_amended (s : Session) (d : Img) (ex ey : Int) (cw ch : Nat)
    (hd : s.displayImage = some d) (hzero : cw = 0 ∨ ch = 0) :
    finish_crop s ex ey cw ch = Except.error CropError.zeroDivisionError := by
  simp [finish_crop, hd, hzero]

/-- Witness for the amended claim C7 at a freshly loaded session with a
zero-width canvas. -/
theorem C7_witness :
    finish_crop (load_image initialSession imgA) 1 1 0 2
      = Except.error CropError.zeroDivisionError :=
  C7_amended (load_image initialSession imgA) imgA 1 1 0 2 (by decide)
    (Or.inl rfl)

/-- Effect of a successful resize with a committed crop baseline: the
session is unchanged except that the working image becomes the collaborator
resize of the baseline to the computed dimensions. -/
theorem resize_image_ok_effect (s s2 : Session) (c : Img) (p : Nat)
    (hc : s.croppedImage = some c) (h : resize_image s p = Except.ok s2) :
    s2 = { s with resizedImage := some (cvSample c
        (c.width * p / 100) (c.height * p / 100)) } := by
  simp only [resize_image, hc] at h
  rcases hcv : cvResize c (c.width * p / 100) (c.height * p / 100) with e | r
  · rw [hcv] at h
    exact Except.noConfusion h
  · rw [hcv] at h
    injection h with h2
    unfold cvResize at hcv
    split at hcv
    · exact Except.noConfusion hcv
    · injection hcv with hr
      rw [← h2, ← hr, hc]

/-- Whether the resize callback returns or raises, every session field
except the working image is unchanged. -/
theorem afterResize_frame (s : Session) (p : Nat) :
    (afterResize s p).croppedImage = s.croppedImage ∧
    (afterResize s p).undoStack = s.undoStack ∧
    (afterResize s p).redoStack = s.redoStack := by
  rcases hcr : s.croppedImage with _ | c
  · simp [afterResize, resize_image, hcr]
  · rcases hcv : cvResize c (c.width * p / 100) (c.height * p / 100) with e | r
    · simp [afterResize, resize_image, hcr, hcv]
    · simp [afterResize, resize_image, hcr, hcv]

/-- A 5 by 5 test buffer: small enough that the slider minimum of 10 percent
computes a zero target dimension. -/
def img5 : Img :=
  { height := 5, width := 5, data := List.replicate 5 (List.replicate 5 7) }

/-- The session after loading `img5` and committing a full-frame crop
(gesture (0,0) to (5,5) on a 5 by 5 canvas). -/
def sessionSmallCrop : Session :=
  { originalImage := some img5, croppedImage := some img5
    resizedImage := some img5, displayImage := some img5
    startX := 0, startY := 0, endX := 5, endY := 5
    undoStack := [img5, img5], redoStack := [] }

/-- Claim C8 is false on the program: with the reachable 5 by 5 cropped
baseline, the slider minimum of 10 percent computes target dimensions
0 by 0, so `cv2.resize` raises `cv2.error` instead of producing a working
image of those dimensions; the reachable empty click-crop baseline raises
at every percent. -/
theorem C8_counterexample :
    finish_crop (start_crop (load_image initialSession img5) 0 0) 5 5 5 5
      = Except.ok sessionSmallCrop ∧
    sessionSmallCrop.croppedImage = some img5 ∧
    img5.width * 10 / 100 = 0 ∧
    resize_image sessionSmallCrop 10 = Except.error CvError.cvError ∧
    resize_image sessionAfterClickCrop 100 = Except.error CvError.cvError := by
  decide

/-- Claim C8 amended: with a committed crop of shape (h, w) and a slider
percent p in the range 10-200 whose computed target dimensions
`int(w * p / 100)` and `int(h * p / 100)` are both positive, `resize_image`
returns normally and makes the working image the collaborator resize of the
CROPPED baseline to exactly those dimensions, pushes nothing onto either
history stack, keeps the baseline untouched, and is not cumulative:
resizing again — or resizing after a filter — yields the same working image
as a single resize from the baseline.  When a computed dimension is zero
(small crop at low percent, or an empty cropped baseline) `cv2.resize`
raises and no working image is produced. -/
theorem C8_resize (s : Session) (c : Img) (p : Nat)
    (hc : s.croppedImage = some c) (_hp1 : 10 ≤ p) (_hp2 : p ≤ 200)
    (hW : 0 < c.width * p / 100) (hH : 0 < c.height * p / 100) :
    resize_image s p = Except.ok { s with resizedImage := some (cvSample c
        (c.width * p / 100) (c.height * p / 100)) } ∧
    ((afterResize s p).resizedImage.map Img.width)
        = some (c.width * p / 100) ∧
    ((afterResize s p).resizedImage.map Img.height)
        = some (c.height * p / 100) ∧
    (afterResize s p).croppedImage = s.croppedImage ∧
    (afterResize s p).undoStack = s.undoStack ∧
    (afterResize s p).redoStack = s.redoStack ∧
    (∀ q s2 s3, resize_image s q = Except.ok s2 →
        resize_image (afterResize s p) q = Except.ok s3 →
        s3.resizedImage = s2.resizedImage) ∧
    (∀ q s2 s3, resize_image s q = Except.ok s2 →
        resize_image (apply_edge s) q = Except.ok s3 →
        s3.resizedImage = s2.resizedImage) := by
  have hw0 : c.width ≠ 0 := by intro h0; rw [h0] at hW; simp at hW
  have hh0 : c.height ≠ 0 := by intro h0; rw [h0] at hH; simp at hH
  have hcv : cvResize c (c.width * p / 100) (c.height * p / 100)
      = Except.ok (cvSample c (c.width * p / 100) (c.height * p / 100)) := by
    unfold cvResize
    rw [if_neg (by push_neg; exact ⟨hh0, hw0, Nat.pos_iff_ne_zero.mp hW,
      Nat.pos_iff_ne_zero.mp hH⟩)]
  have hmain : resize_image s p = Except.ok { s with resizedImage := some (cvSample c
      (c.width * p / 100) (c.height * p / 100)) } := by
    simp [resize_image, hc, hcv]
  have hA : afterResize s p = { s with resizedImage := some (cvSample c
      (c.width * p / 100) (c.height * p / 100)) } := by
    simp [afterResize, hmain]
  have hAc : (afterResize s p).croppedImage = some c := by
    rw [hA]; exact hc
  have hEc : (apply_edge s).croppedImage = some c := by
    rcases hr : s.resizedImage with _ | r
    · simp [apply_edge, hr, hc]
    · simp [apply_edge, push_undo, hr, hc]
  refine ⟨hmain, ?_, ?_, ?_, ?_, ?_, ?_, ?_⟩
  · rw [hA]; simp [cvSample]
  · rw [hA]; simp [cvSample]
  · rw [hA]
  · rw [hA]
  · rw [hA]
  · intro q s2 s3 h2 h3
    have e2 := resize_image_ok_effect s s2 c q hc h2
    have e3 := resize_image_ok_effect (afterResize s p) s3 c q hAc h3
    rw [e2, e3, hA]
  · intro q s2 s3 h2 h3
    have e2 := resize_image_ok_effect s s2 c q hc h2
    have e3 := resize_image_ok_effect (apply_edge s) s3 c q hEc h3
    rw [e2, e3]

/-- The full-frame 2 by 2 session after a successful 50 percent resize. -/
def sessionResized50 : Session :=
  { sessionAfterFullCrop with resizedImage := some (cvSample imgA 1 1) }

/-- The full-frame 2 by 2 session after a successful 200 percent resize. -/
def sessionResized200 : Session :=
  { sessionAfterFullCrop with resizedImage := some (cvSample imgA 4 4) }

/-- The full-frame 2 by 2 session after an edge filter and then a successful
50 percent resize: the same working image as `sessionResized50`, on top of
the filter-extended undo stack. -/
def sessionEdgeResized50 : Session :=
  { sessionAfterFullCrop2 with resizedImage := some (cvSample imgA 1 1) }

/-- Witness for the amended claim C8 at the full-frame crop of the 2 by 2
buffer with the slider at 50 percent (computed dimensions 1 by 1). -/
theorem C8_witness :
    resize_image sessionAfterFullCrop 50 = Except.ok
      { sessionAfterFullCrop with resizedImage := some (cvSample imgA
          (imgA.width * 50 / 100) (imgA.height * 50 / 100)) } ∧
    ((afterResize sessionAfterFullCrop 50).resizedImage.map Img.width)
        = some (imgA.width * 50 / 100) ∧
    ((afterResize sessionAfterFullCrop 50).resizedImage.map Img.height)
        = some (imgA.height * 50 / 100) ∧
    (afterResize sessionAfterFullCrop 50).croppedImage
        = sessionAfterFullCrop.croppedImage ∧
    (afterResize sessionAfterFullCrop 50).undoStack
        = sessionAfterFullCrop.undoStack ∧
    (afterResize sessionAfterFullCrop 50).redoStack
        = sessionAfterFullCrop.redoStack ∧
    sessionResized200.resizedImage = sessionResized200.resizedImage ∧
    sessionEdgeResized50.resizedImage = sessionResized50.resizedImage := by
  have h := C8_resize sessionAfterFullCrop imgA 50 (by decide) (by decide)
    (by decide) (by decide) (by decide)
  exact ⟨h.1, h.2.1, h.2.2.1, h.2.2.2.1, h.2.2.2.2.1, h.2.2.2.2.2.1,
    h.2.2.2.2.2.2.1 200 sessionResized200 sessionResized200 (by decide)
      (by decide),
    h.2.2.2.2.2.2.2 50 sessionResized50 sessionEdgeResized50 (by decide)
      (by decide)⟩

/-- Claim C9 is false on the code in its baseline clause: after a load and a
first crop the oldest undo entry is the loaded original, not the post-crop
baseline, and a single undo pops the post-crop baseline off the stack,
reverting the working image to the pre-crop original. -/
theorem C9_counterexample :
    finish_crop (start_crop (load_image initialSession imgA) 0 0) 1 1 2 2
      = Except.ok sessionAfterTLCrop ∧
    sessionAfterTLCrop.croppedImage = some imgCropTL ∧
    sessionAfterTLCrop.undoStack.getLast? = some imgA ∧
    imgA ≠ imgCropTL ∧
    (undo sessionAfterTLCrop).undoStack = [imgA] ∧
    (undo sessionAfterTLCrop).resizedImage = some imgA := by decide

/-- Claim C9 amended: when the undo stack holds more than one entry, `undo`
pops the top onto the redo stack and the working image becomes the new top;
with zero or one entries it is a no-op leaving the whole session unchanged;
and the oldest undo entry — which is the snapshot pushed at load time, not
necessarily the post-crop baseline — is never popped. -/
theorem C9_amended (s : Session) :
    (∀ t next rest, s.undoStack = t :: next :: rest →
        undo s = { s with undoStack := next :: rest
                          redoStack := t :: s.redoStack
                          resizedImage := some next }) ∧
    (s.undoStack.length ≤ 1 → undo s = s) ∧
    (undo s).undoStack.getLast? = s.undoStack.getLast? := by
  refine ⟨?_, ?_, ?_⟩
  · intro t next rest h
    simp [undo, h]
  · intro hlen
    rcases h : s.undoStack with _ | ⟨t, _ | ⟨next, rest⟩⟩
    · simp [undo, h]
    · simp [undo, h]
    · rw [h] at hlen; simp at hlen
  · rcases h : s.undoStack with _ | ⟨t, _ | ⟨next, rest⟩⟩
    · simp [undo, h]
    · simp [undo, h]
    · simp [undo, h, List.getLast?_cons_cons]

/-- Witness for the amended claim C9: an effective undo on the two-entry
post-crop session, a no-op undo on the rewound one-entry session, and
preservation of the oldest entry. -/
theorem C9_witness :
    undo sessionAfterTLCrop
      = { sessionAfterTLCrop with undoStack := [imgA]
                                  redoStack := [imgCropTL]
                                  resizedImage := some imgA } ∧
    undo sessionRewound = sessionRewound ∧
    (undo sessionAfterTLCrop).undoStack.getLast?
      = sessionAfterTLCrop.undoStack.getLast? :=
  ⟨(C9_amended sessionAfterTLCrop).1 imgCropTL imgA [] (by decide),
   (C9_amended sessionRewound).2.1 (by decide),
   (C9_amended sessionAfterTLCrop).2.2⟩

/-- Claim C10: `undo` and `redo` preserve the total number of stored
snapshots (undo-stack size plus redo-stack size) on every history state, in
the effective and the no-op branches alike; the non-committing operations
(`start_crop`, the resize callback whether it returns or raises, and
`save_image`) preserve it as well, so only a committed edit — the
`push_undo` path — changes that total. -/
theorem C10_snapshot_total (s : Session) (x y : Int) (p : Nat) :
    (undo s).undoStack.length + (undo s).redoStack.length
        = s.undoStack.length + s.redoStack.length ∧
    (redo s).undoStack.length + (redo s).redoStack.length
        = s.undoStack.length + s.redoStack.length ∧
    (start_crop s x y).undoStack.length + (start_crop s x y).redoStack.length
        = s.undoStack.length + s.redoStack.length ∧
    (afterResize s p).undoStack.length + (afterResize s p).redoStack.length
        = s.undoStack.length + s.redoStack.length ∧
    (save_image s).undoStack.length + (save_image s).redoStack.length
        = s.undoStack.length + s.redoStack.length := by
  refine ⟨?_, ?_, ?_, ?_, ?_⟩
  · rcases h : s.undoStack with _ | ⟨t, _ | ⟨next, rest⟩⟩
    · simp [undo, h]
    · simp [undo, h]
    · simp [undo, h]
      omega
  · rcases h : s.redoStack with _ | ⟨t, rest⟩
    · simp [redo, h]
    · simp [redo, h]
      omega
  · simp [start_crop]
  · have hf := afterResize_frame s p
    rw [hf.2.1, hf.2.2]
  · simp [save_image]
